import Mathlib

/-!
Verification of the todo-mongo-prisma CRUD application.

The repository has two components (both in `src/routes/api.js`):
an Express router exposing four endpoints (POST /todo, GET /todos,
PUT /todo/:id, DELETE /todo/:id) over a Prisma/MongoDB store, and a
frontend fetch client (createData, readData, updateData, deleteData).
The Prisma schema (from `src/todo.md`) is:
  model Todo { id String @id @default(auto()) @map("_id") @db.ObjectId
               content String
               date DateTime @default(now()) }

We embed the store as a list of records, the external storage engine
(Prisma + MongoDB, an external collaborator per the schema above) as
functions returning `Except DbError`, the route handlers as functions
from store and storage outcome to an HTTP response plus new store, and
the client's promise chains as explicit `.then`/`.catch` combinators.
-/

namespace TodoApp

/-- A persisted Todo record, per the Prisma schema in `src/todo.md`:
`id` (ObjectId, unique), `content` (String), `date` (DateTime, modelled
as a Nat timestamp). -/
structure Todo where
  id : String
  content : String
  date : Nat
deriving Repr, DecidableEq

/-- The MongoDB collection state: the list of persisted records. -/
abbrev Store := List Todo

/-- The ids of all records in the store. -/
def storeIds (db : Store) : List String := db.map (fun t => t.id)

/-- A JSON request body, restricted to the fields of the Todo model
(Prisma rejects unknown arguments, so other keys cannot reach the
store).  Each field is optional: absent keys are `none`. -/
structure Body where
  content : Option String
  id : Option String
  date : Option Nat
deriving Repr, DecidableEq

/-- The keys present in the JSON serialization of a body. -/
def Body.keys (b : Body) : List String :=
  (match b.content with | some _ => ["content"] | none => []) ++
  (match b.id with | some _ => ["id"] | none => []) ++
  (match b.date with | some _ => ["date"] | none => [])

/-- Errors raised by the storage engine (Prisma + MongoDB).  The spec
treats them uniformly; we distinguish the causes named by it:
not-found, malformed key, constraint violation, connectivity loss,
missing required field, and an attempt to modify the immutable `_id`. -/
inductive DbError where
  | malformedId (s : String)
  | notFound
  | missingContent
  | uniqueViolation (s : String)
  | immutableId
  | connectivity
deriving Repr, DecidableEq

/-- Hexadecimal digit test for ObjectId validation. -/
def isHexChar (c : Char) : Bool :=
  c.isDigit || (Char.ofNat 97 ≤ c && c ≤ Char.ofNat 102) ||
    (Char.ofNat 65 ≤ c && c ≤ Char.ofNat 70)

/-- A syntactically valid MongoDB ObjectId: 24 hexadecimal characters. -/
def isValidObjectId (s : String) : Bool :=
  s.length == 24 && s.data.all isHexChar

/-- Storage engine `prisma.todo.create({data})`: requires `content`
(no default in the schema); `id` defaults to a fresh engine-generated
ObjectId and `date` to the insert-time clock `now`; a caller-supplied
id must be a valid ObjectId and must not collide with an existing
record (`_id` is unique). -/
def todoCreate (db : Store) (fresh : String) (now : Nat) (body : Body) :
    Except DbError (Todo × Store) :=
  match body.content with
  | none => .error .missingContent
  | some c =>
    let chosen := body.id.getD fresh
    if body.id.isSome && !isValidObjectId chosen then
      .error (.malformedId chosen)
    else if db.any (fun t => t.id == chosen) then
      .error (.uniqueViolation chosen)
    else
      let t : Todo := { id := chosen, content := c, date := body.date.getD now }
      .ok (t, db ++ [t])

/-- Comparison used by `orderBy: { date: 'desc' }`: newest first. -/
def dateDescLe (a b : Todo) : Bool := decide (b.date ≤ a.date)

/-- Storage engine `prisma.todo.findMany({where: {}, orderBy: {date: 'desc'}})`:
all records sorted by `date` descending. -/
def todoFindMany (db : Store) : List Todo :=
  db.mergeSort dateDescLe

/-- Storage engine `prisma.todo.update({where: {id}, data: body})`:
raises on a malformed key, on an attempt to set the immutable `_id`,
and when no record matches; otherwise merges the body's present fields
into the matched record and returns the updated record. -/
def todoUpdate (db : Store) (id : String) (body : Body) :
    Except DbError (Todo × Store) :=
  if !isValidObjectId id then .error (.malformedId id)
  else if body.id.isSome then .error .immutableId
  else
    match db.find? (fun t => t.id == id) with
    | none => .error .notFound
    | some t =>
      let t' : Todo := { t with content := body.content.getD t.content,
                                date := body.date.getD t.date }
      .ok (t', db.map (fun u => if u.id == id then t' else u))

/-- Storage engine `prisma.todo.delete({where: {id}})`: raises on a
malformed key and when no record matches; otherwise removes the record
and returns its pre-deletion snapshot. -/
def todoDelete (db : Store) (id : String) : Except DbError (Todo × Store) :=
  if !isValidObjectId id then .error (.malformedId id)
  else
    match db.find? (fun t => t.id == id) with
    | none => .error .notFound
    | some t => .ok (t, db.filter (fun u => !(u.id == id)))

/-- An HTTP response body: a single record, an array, or a raw error. -/
inductive ResBody where
  | todoItem (t : Todo)
  | todoList (ts : List Todo)
  | errBody (e : DbError)
deriving Repr, DecidableEq

/-- An HTTP response: Express `res.send` defaults to status 200;
`res.status(500).send(err)` sends the raw error. -/
structure Response where
  status : Nat
  body : ResBody
deriving Repr, DecidableEq

/-- The try/catch shape shared by the POST, PUT and DELETE handlers:
on success send the record (status 200); on any storage exception
respond 500 with the raw error, leaving the store as the engine left it
(unchanged on error). -/
def sendOr500 (db : Store) (r : Except DbError (Todo × Store)) :
    Response × Store :=
  match r with
  | .ok (t, db') => ({ status := 200, body := .todoItem t }, db')
  | .error e => ({ status := 500, body := .errBody e }, db)

/-- `router.post('/todo')` given the outcome of the storage call. -/
def postTodoWith (db : Store) (r : Except DbError (Todo × Store)) :
    Response × Store :=
  sendOr500 db r

/-- `router.get('/todos')` given the outcome of the storage call. -/
def getTodosWith (db : Store) (r : Except DbError (List Todo)) :
    Response × Store :=
  match r with
  | .ok ts => ({ status := 200, body := .todoList ts }, db)
  | .error e => ({ status := 500, body := .errBody e }, db)

/-- `router.put('/todo/:id')` given the outcome of the storage call. -/
def putTodoWith (db : Store) (r : Except DbError (Todo × Store)) :
    Response × Store :=
  sendOr500 db r

/-- `router.delete('/todo/:id')` given the outcome of the storage call. -/
def deleteTodoWith (db : Store) (r : Except DbError (Todo × Store)) :
    Response × Store :=
  sendOr500 db r

/-- `router.post('/todo')`: create from the request body. -/
def postTodo (db : Store) (fresh : String) (now : Nat) (body : Body) :
    Response × Store :=
  postTodoWith db (todoCreate db fresh now body)

/-- `router.get('/todos')`: list all records, newest first. -/
def getTodos (db : Store) : Response × Store :=
  getTodosWith db (.ok (todoFindMany db))

/-- `router.put('/todo/:id')`: update by id from the request body. -/
def putTodo (db : Store) (id : String) (body : Body) : Response × Store :=
  putTodoWith db (todoUpdate db id body)

/-- `router.delete('/todo/:id')`: delete by id. -/
def deleteTodo (db : Store) (id : String) : Response × Store :=
  deleteTodoWith db (todoDelete db id)

/-! ## Frontend client (the second half of `src/routes/api.js`)

The client functions are promise chains over `fetch`.  We embed a
promise outcome as resolved-or-rejected, the DOM/console effects the
handlers perform as an explicit `Eff` state, and `.then`/`.catch` as
combinators threading that state.  The `fetch` call itself is the
browser's: each client function takes its outcome as a parameter. -/

/-- The outcome of a (settled) JavaScript promise. -/
inductive POutcome (α : Type) where
  | resolved (v : α)
  | rejected (err : String)
deriving Repr, DecidableEq

/-- The browser effects the client touches: the CSS `display` of the
`#notices` element, and the number of `console.log` calls. -/
structure Eff where
  noticesDisplay : String
  logs : Nat
deriving Repr, DecidableEq

/-- `.then(f)` on a settled promise: a rejection passes through. -/
def runThen (p : POutcome α × Eff) (f : α → Eff → POutcome β × Eff) :
    POutcome β × Eff :=
  match p with
  | (.resolved v, s) => f v s
  | (.rejected e, s) => (.rejected e, s)

/-- `.catch(h)` on a settled promise: a resolution passes through. -/
def runCatch (p : POutcome α × Eff) (h : String → Eff → POutcome α × Eff) :
    POutcome α × Eff :=
  match p with
  | (.resolved v, s) => (.resolved v, s)
  | (.rejected e, s) => h e s

/-- A `fetch` Response: its `ok` flag and, when `response.json()`
succeeds, the parsed body (`none` when parsing rejects). -/
structure FetchResponse (α : Type) where
  ok : Bool
  jsonBody : Option α
deriving Repr, DecidableEq

/-- `response.json()`: resolves with the parsed body or rejects. -/
def responseJson (r : FetchResponse α) : POutcome α :=
  match r.jsonBody with
  | some v => .resolved v
  | none => .rejected "invalid json"

/-- Map over a resolved value, as returning inside a `.then` does. -/
def pmap (f : α → β) : POutcome α → POutcome β
  | .resolved v => .resolved (f v)
  | .rejected e => .rejected e

/-- An HTTP request as the client builds it for `fetch`: URL, method,
and optional JSON body. -/
structure Request where
  url : String
  method : String
  body : Option Body
deriving Repr, DecidableEq

/-- A rendered todo `<li>` element: its `dataset.id` attribute and the
value of its nested `form input`. -/
structure TodoElement where
  datasetId : String
  formInputValue : String
deriving Repr, DecidableEq

/-- The request `createData(textInput)` issues:
`fetch('/todo', {method: 'POST', body: JSON.stringify({content: textInput})})`. -/
def createRequest (textInput : String) : Request :=
  { url := "/todo", method := "POST",
    body := some { content := some textInput, id := none, date := none } }

/-- The request `readData()` issues: `fetch('/todos', {method: "GET"})`. -/
def readRequest : Request :=
  { url := "/todos", method := "GET", body := none }

/-- The request `updateData(todo)` issues: PUT to `'/todo/' + todo.dataset.id`
with body `JSON.stringify({content: todo.querySelector('form input').value})`. -/
def updateRequest (todo : TodoElement) : Request :=
  { url := "/todo/" ++ todo.datasetId, method := "PUT",
    body := some { content := some todo.formInputValue, id := none, date := none } }

/-- The request `deleteData(todo)` issues: DELETE to `'/todo/' + todo.dataset.id`. -/
def deleteRequest (todo : TodoElement) : Request :=
  { url := "/todo/" ++ todo.datasetId, method := "DELETE", body := none }

/-- `createData`'s promise chain, given the outcome of its `fetch`:
throw on a non-ok response, otherwise parse the body; the terminal
catch logs the error and resolves with `undefined` (`none`). -/
def createData (fr : POutcome (FetchResponse Todo)) (s : Eff) :
    POutcome (Option Todo) × Eff :=
  runCatch
    (runThen (fr, s) (fun response s =>
      if !response.ok then (.rejected "Failed to create todo", s)
      else (pmap some (responseJson response), s)))
    (fun _ s => (.resolved none, { s with logs := s.logs + 1 }))

/-- `readData`'s promise chain, given the outcome of its `fetch`:
on a non-ok response make `#notices` visible and return `[]`; the
terminal catch logs, makes `#notices` visible, and returns `[]`. -/
def readData (fr : POutcome (FetchResponse (List Todo))) (s : Eff) :
    POutcome (List Todo) × Eff :=
  runCatch
    (runThen (fr, s) (fun response s =>
      if !response.ok then
        (.resolved [], { s with noticesDisplay := "block" })
      else (responseJson response, s)))
    (fun _ s =>
      (.resolved [], { s with logs := s.logs + 1, noticesDisplay := "block" }))

/-- `updateData`'s promise chain, given the outcome of its `fetch`. -/
def updateData (fr : POutcome (FetchResponse Todo)) (s : Eff) :
    POutcome (Option Todo) × Eff :=
  runCatch
    (runThen (fr, s) (fun response s =>
      if !response.ok then (.rejected "Failed to update todo", s)
      else (pmap some (responseJson response), s)))
    (fun _ s => (.resolved none, { s with logs := s.logs + 1 }))

/-- `deleteData`'s promise chain, given the outcome of its `fetch`. -/
def deleteData (fr : POutcome (FetchResponse Todo)) (s : Eff) :
    POutcome (Option Todo) × Eff :=
  runCatch
    (runThen (fr, s) (fun response s =>
      if !response.ok then (.rejected "Failed to delete todo", s)
      else (pmap some (responseJson response), s)))
    (fun _ s => (.resolved none, { s with logs := s.logs + 1 }))

/-! ## Operations and reachable states -/

/-- One API request, as the router receives it. -/
inductive Op where
  | createOp (fresh : String) (now : Nat) (body : Body)
  | listOp
  | updateOp (id : String) (body : Body)
  | deleteOp (id : String)
deriving Repr, DecidableEq

/-- The store after one request is handled. -/
def stepOp (db : Store) : Op → Store
  | .createOp fresh now body => (postTodo db fresh now body).2
  | .listOp => (getTodos db).2
  | .updateOp id body => (putTodo db id body).2
  | .deleteOp id => (deleteTodo db id).2

/-- The store after a sequence of requests. -/
def runOps (db : Store) : List Op → Store
  | [] => db
  | op :: ops => runOps (stepOp db op) ops

/-! ## Helper lemmas -/

/-- With unique ids, two members of the store with the same id are equal. -/
theorem eq_of_mem_of_id_eq {db : Store} {t u : Todo}
    (hnd : (storeIds db).Nodup) (ht : t ∈ db) (hu : u ∈ db)
    (hid : u.id = t.id) : u = t :=
  List.inj_on_of_nodup_map hnd hu ht hid

/-- With unique ids, looking up a member's id finds exactly that member. -/
theorem find_id_of_nodup {db : Store} {t : Todo}
    (hnd : (storeIds db).Nodup) (ht : t ∈ db) :
    db.find? (fun u => u.id == t.id) = some t := by
  have hsome : (db.find? (fun u => u.id == t.id)).isSome := by
    rw [List.find?_isSome]
    exact ⟨t, ht, by simp⟩
  obtain ⟨u, hu⟩ := Option.isSome_iff_exists.mp hsome
  have humem : u ∈ db := List.mem_of_find?_eq_some hu
  have hpred := List.find?_some hu
  have huid : u.id = t.id := by simpa using hpred
  have : u = t := eq_of_mem_of_id_eq hnd ht humem huid
  rw [hu, this]

/-- If an id is absent from the store, the engine's duplicate check fails. -/
theorem any_id_eq_false {db : Store} {fresh : String}
    (hf : fresh ∉ storeIds db) :
    db.any (fun t => t.id == fresh) = false := by
  rw [← Bool.not_eq_true, List.any_eq_true]
  rintro ⟨u, hu, hbeq⟩
  exact hf (by
    rw [storeIds, List.mem_map]
    exact ⟨u, hu, beq_iff_eq.mp hbeq⟩)

/-- If the engine's duplicate check fails, the id is absent from the store. -/
theorem not_mem_ids_of_any_false {db : Store} {chosen : String}
    (h : db.any (fun t => t.id == chosen) = false) :
    chosen ∉ storeIds db := by
  intro hmem
  rw [storeIds, List.mem_map] at hmem
  obtain ⟨u, hu, he⟩ := hmem
  have : db.any (fun t => t.id == chosen) = true :=
    List.any_eq_true.mpr ⟨u, hu, by simp [he]⟩
  rw [this] at h
  cases h

/-- A successful engine update leaves the list of stored ids unchanged. -/
theorem todoUpdate_ids {db db' : Store} {id : String} {body : Body} {t : Todo}
    (h : todoUpdate db id body = .ok (t, db')) :
    storeIds db' = storeIds db := by
  unfold todoUpdate at h
  split at h
  · cases h
  · split at h
    · cases h
    · split at h
      · cases h
      · rename_i t0 hfind
        have hpred := List.find?_some hfind
        have ht0 : t0.id = id := by simpa using hpred
        rw [Except.ok.injEq, Prod.mk.injEq] at h
        obtain ⟨-, hdb⟩ := h
        rw [← hdb]
        rw [storeIds, storeIds, List.map_map]
        apply List.map_congr_left
        intro u _
        by_cases hu : (u.id == id) = true
        · simp only [Function.comp_apply, hu, if_true]
          rw [ht0, beq_iff_eq.mp hu]
        · have hne : u.id ≠ id := by simpa using hu
          simp [Function.comp_apply, hne]

/-- The PUT route leaves the list of stored ids unchanged, whether the
engine call succeeds or raises. -/
theorem putTodo_ids (db : Store) (id : String) (body : Body) :
    storeIds ((putTodo db id body).2) = storeIds db := by
  rcases hr : todoUpdate db id body with e | ⟨t, db'⟩
  · simp [putTodo, putTodoWith, sendOr500, hr]
  · simp only [putTodo, putTodoWith, sendOr500, hr]
    exact todoUpdate_ids hr

/-- A successful engine update with no `date` in the body leaves every
record's date unchanged (given unique ids). -/
theorem todoUpdate_dates {db db' : Store} {id : String} {body : Body} {t : Todo}
    (hdate : body.date = none) (hnd : (storeIds db).Nodup)
    (h : todoUpdate db id body = .ok (t, db')) :
    db'.map (fun u => u.date) = db.map (fun u => u.date) := by
  unfold todoUpdate at h
  split at h
  · cases h
  · split at h
    · cases h
    · split at h
      · cases h
      · rename_i t0 hfind
        have hpred := List.find?_some hfind
        have ht0id : t0.id = id := by simpa using hpred
        have ht0mem : t0 ∈ db := List.mem_of_find?_eq_some hfind
        rw [Except.ok.injEq, Prod.mk.injEq] at h
        obtain ⟨-, hdb⟩ := h
        rw [← hdb, List.map_map]
        apply List.map_congr_left
        intro u hu
        by_cases huid : (u.id == id) = true
        · have : u = t0 := eq_of_mem_of_id_eq hnd ht0mem hu
            (by rw [beq_iff_eq.mp huid, ht0id])
        -- the merged record keeps the old date since the body has none
          simp only [Function.comp_apply, huid, if_true, hdate, Option.getD_none]
          rw [this]
        · have hne : u.id ≠ id := by simpa using huid
          simp [Function.comp_apply, hne]

/-- After handling a POST, the store is unchanged (engine raised) or has
exactly one appended record whose id was not present before. -/
theorem postTodo_store_cases (db : Store) (fresh : String) (now : Nat)
    (body : Body) :
    (postTodo db fresh now body).2 = db ∨
    ∃ t, (postTodo db fresh now body).2 = db ++ [t] ∧ t.id ∉ storeIds db := by
  unfold postTodo postTodoWith sendOr500 todoCreate
  rcases body.content with - | c
  · left; rfl
  · by_cases h1 : (body.id.isSome && !isValidObjectId (body.id.getD fresh)) = true
    · left; simp [h1]
    · by_cases h2 : db.any (fun t => t.id == body.id.getD fresh) = true
      · left; simp [h1, h2]
      · right
        have h2f : db.any (fun t => t.id == body.id.getD fresh) = false := by
          simpa using h2
        refine ⟨{ id := body.id.getD fresh, content := c,
                  date := body.date.getD now }, ?_,
          not_mem_ids_of_any_false h2f⟩
        simp [h1, h2f]

/-! ## Claims -/

/-- C1: every route handler turns any storage exception into an HTTP 500
response carrying the raw error, with the store untouched; in
particular PUT and DELETE on a syntactically invalid id respond 500
(the handlers are total functions: no crash). -/
theorem c1_uniform_500 (db : Store) (e : DbError) (id : String) (body : Body) :
    postTodoWith db (.error e) = ({ status := 500, body := .errBody e }, db) ∧
    getTodosWith db (.error e) = ({ status := 500, body := .errBody e }, db) ∧
    putTodoWith db (.error e) = ({ status := 500, body := .errBody e }, db) ∧
    deleteTodoWith db (.error e) = ({ status := 500, body := .errBody e }, db) ∧
    (isValidObjectId id = false →
      putTodo db id body =
        ({ status := 500, body := .errBody (.malformedId id) }, db) ∧
      deleteTodo db id =
        ({ status := 500, body := .errBody (.malformedId id) }, db)) := by
  refine ⟨rfl, rfl, rfl, rfl, fun h => ⟨?_, ?_⟩⟩
  · simp [putTodo, putTodoWith, sendOr500, todoUpdate, h]
  · simp [deleteTodo, deleteTodoWith, sendOr500, todoDelete, h]

/-- Witness for C1 at a concrete malformed id. -/
theorem c1_uniform_500_witness :
    isValidObjectId "not-a-hex-objectid" = false ∧
    putTodo [] "not-a-hex-objectid" { content := none, id := none, date := none } =
      ({ status := 500, body := .errBody (.malformedId "not-a-hex-objectid") }, []) :=
  ⟨by decide,
   ((c1_uniform_500 [] .connectivity "not-a-hex-objectid"
      { content := none, id := none, date := none }).2.2.2.2 (by decide)).1⟩

/-- C2: GET /todos responds 200 with all stored records sorted by date
descending (a permutation of the store, pairwise newest-first), leaves
the store unchanged, and returns the empty array on an empty store. -/
theorem c2_list_sorted (db : Store) :
    (getTodos db).1.status = 200 ∧
    (getTodos db).1.body = .todoList (todoFindMany db) ∧
    (getTodos db).2 = db ∧
    List.Perm (todoFindMany db) db ∧
    (todoFindMany db).Pairwise (fun a b => b.date ≤ a.date) ∧
    todoFindMany ([] : Store) = [] := by
  refine ⟨rfl, rfl, rfl, List.mergeSort_perm db dateDescLe, ?_, by simp [todoFindMany]⟩
  have h := @List.sorted_mergeSort Todo dateDescLe
    (fun a b c hab hbc => by
      simp only [dateDescLe, decide_eq_true_eq] at *
      omega)
    (fun a b => by
      simp only [dateDescLe]
      rcases Nat.le_total b.date a.date with h | h <;> simp [h])
    db
  exact h.imp (fun hab => by simpa [dateDescLe] using hab)

/-- C3: updating an existing record's content via PUT yields 200 with
the updated record; the record keeps its id and date, and every other
record is untouched. -/
theorem c3_update_content (db : Store) (t : Todo) (X : String)
    (hnd : (storeIds db).Nodup) (ht : t ∈ db)
    (hv : isValidObjectId t.id = true) :
    putTodo db t.id { content := some X, id := none, date := none } =
      ({ status := 200, body := .todoItem { t with content := X } },
       db.map (fun u => if u.id = t.id then { t with content := X } else u)) ∧
    { t with content := X } ∈
      (putTodo db t.id { content := some X, id := none, date := none }).2 ∧
    ∀ u ∈ db, u.id ≠ t.id →
      u ∈ (putTodo db t.id { content := some X, id := none, date := none }).2 := by
  have hfind := find_id_of_nodup hnd ht
  have hmain : putTodo db t.id { content := some X, id := none, date := none } =
      ({ status := 200, body := .todoItem { t with content := X } },
       db.map (fun u => if u.id = t.id then { t with content := X } else u)) := by
    simp [putTodo, putTodoWith, sendOr500, todoUpdate, hv, hfind]
  refine ⟨hmain, ?_, ?_⟩
  · rw [hmain]
    simp only [List.mem_map]
    exact ⟨t, ht, by simp⟩
  · intro u hu hne
    rw [hmain]
    simp only [List.mem_map]
    exact ⟨u, hu, by simp [hne]⟩

/-- Witness for C3 on a one-record store. -/
theorem c3_update_content_witness :
    (storeIds [{ id := "0123456789abcdef01234567", content := "hello",
                 date := 5 }]).Nodup ∧
    ({ id := "0123456789abcdef01234567", content := "hello", date := 5 } : Todo) ∈
      [({ id := "0123456789abcdef01234567", content := "hello", date := 5 } : Todo)] ∧
    isValidObjectId "0123456789abcdef01234567" = true ∧
    putTodo [{ id := "0123456789abcdef01234567", content := "hello", date := 5 }]
        "0123456789abcdef01234567"
        { content := some "X", id := none, date := none } =
      ({ status := 200,
         body := .todoItem
           { id := "0123456789abcdef01234567", content := "X", date := 5 } },
       [{ id := "0123456789abcdef01234567", content := "X", date := 5 }]) := by
  refine ⟨by decide, by decide, by decide, ?_⟩
  have h := (c3_update_content
    [{ id := "0123456789abcdef01234567", content := "hello", date := 5 }]
    { id := "0123456789abcdef01234567", content := "hello", date := 5 }
    "X" (by decide) (by decide) (by decide)).1
  simpa using h

/-- C4: POST with a body carrying only `content` appends one record with
that content, a fresh id and the insert-time date, responds 200 with the
created record, and a subsequent listing holds exactly one record with
that content. -/
theorem c4_create (db : Store) (fresh : String) (now : Nat) (c : String)
    (hf : fresh ∉ storeIds db) (hc : ∀ u ∈ db, u.content ≠ c) :
    postTodo db fresh now { content := some c, id := none, date := none } =
      ({ status := 200,
         body := .todoItem { id := fresh, content := c, date := now } },
       db ++ [{ id := fresh, content := c, date := now }]) ∧
    List.countP (fun u => u.content == c)
      (todoFindMany (db ++ [{ id := fresh, content := c, date := now }])) = 1 := by
  have hany := any_id_eq_false hf
  constructor
  · simp [postTodo, postTodoWith, sendOr500, todoCreate, hany]
  · have hperm : List.countP (fun u => u.content == c)
        (todoFindMany (db ++ [{ id := fresh, content := c, date := now }])) =
        List.countP (fun u => u.content == c)
          (db ++ [{ id := fresh, content := c, date := now }]) :=
      List.Perm.countP_eq _ (List.mergeSort_perm _ dateDescLe)
    rw [hperm, List.countP_append]
    have h0 : List.countP (fun u => u.content == c) db = 0 :=
      List.countP_eq_zero.mpr (fun u hu => by simp [hc u hu])
    simp [h0, List.countP_cons]

/-- Witness for C4 on the empty store. -/
theorem c4_create_witness :
    ("bbbbbbbbbbbbbbbbbbbbbbbb" ∉ storeIds []) ∧
    (∀ u ∈ ([] : Store), u.content ≠ "buy milk") ∧
    postTodo [] "bbbbbbbbbbbbbbbbbbbbbbbb" 7
        { content := some "buy milk", id := none, date := none } =
      ({ status := 200,
         body := .todoItem
           { id := "bbbbbbbbbbbbbbbbbbbbbbbb", content := "buy milk", date := 7 } },
       [{ id := "bbbbbbbbbbbbbbbbbbbbbbbb", content := "buy milk", date := 7 }]) ∧
    List.countP (fun u => u.content == "buy milk")
      (todoFindMany
        [{ id := "bbbbbbbbbbbbbbbbbbbbbbbb", content := "buy milk", date := 7 }]) = 1 := by
  have h := c4_create [] "bbbbbbbbbbbbbbbbbbbbbbbb" 7 "buy milk"
    (by decide) (by intro u hu; cases hu)
  refine ⟨by decide, ?_, ?_, ?_⟩
  · intro u hu
    cases hu
  · simpa using h.1
  · simpa using h.2

/-- C5: DELETE of an existing record responds 200 with the pre-deletion
snapshot, the record's id is gone from the store, every other record
remains, and a second DELETE of the same id responds 500. -/
theorem c5_delete (db : Store) (t : Todo)
    (hnd : (storeIds db).Nodup) (ht : t ∈ db)
    (hv : isValidObjectId t.id = true) :
    deleteTodo db t.id =
      ({ status := 200, body := .todoItem t },
       db.filter (fun u => !(u.id == t.id))) ∧
    t.id ∉ storeIds ((deleteTodo db t.id).2) ∧
    (∀ u ∈ db, u.id ≠ t.id → u ∈ (deleteTodo db t.id).2) ∧
    (deleteTodo ((deleteTodo db t.id).2) t.id).1 =
      { status := 500, body := .errBody .notFound } := by
  have hfind := find_id_of_nodup hnd ht
  have hmain : deleteTodo db t.id =
      ({ status := 200, body := .todoItem t },
       db.filter (fun u => !(u.id == t.id))) := by
    simp [deleteTodo, deleteTodoWith, sendOr500, todoDelete, hv, hfind]
  have hnone : (db.filter (fun u => !(u.id == t.id))).find?
      (fun u => u.id == t.id) = none := by
    rw [List.find?_eq_none]
    intro u hu
    have hpred := (List.mem_filter.mp hu).2
    simpa using hpred
  refine ⟨hmain, ?_, ?_, ?_⟩
  · rw [hmain]
    simp only [storeIds, List.mem_map]
    rintro ⟨u, hu, hid⟩
    have hpred := (List.mem_filter.mp hu).2
    rw [hid] at hpred
    simp at hpred
  · intro u hu hne
    rw [hmain]
    simp [List.mem_filter, hu, hne]
  · rw [hmain]
    simp [deleteTodo, deleteTodoWith, sendOr500, todoDelete, hv, hnone]

/-- Witness for C5 on a two-record store. -/
theorem c5_delete_witness :
    (storeIds [{ id := "0123456789abcdef01234567", content := "hello", date := 5 },
               { id := "aaaaaaaaaaaaaaaaaaaaaaaa", content := "bye", date := 9 }]).Nodup ∧
    ({ id := "0123456789abcdef01234567", content := "hello", date := 5 } : Todo) ∈
      [({ id := "0123456789abcdef01234567", content := "hello", date := 5 } : Todo),
       { id := "aaaaaaaaaaaaaaaaaaaaaaaa", content := "bye", date := 9 }] ∧
    isValidObjectId "0123456789abcdef01234567" = true ∧
    deleteTodo [{ id := "0123456789abcdef01234567", content := "hello", date := 5 },
                { id := "aaaaaaaaaaaaaaaaaaaaaaaa", content := "bye", date := 9 }]
        "0123456789abcdef01234567" =
      ({ status := 200,
         body := .todoItem
           { id := "0123456789abcdef01234567", content := "hello", date := 5 } },
       [{ id := "aaaaaaaaaaaaaaaaaaaaaaaa", content := "bye", date := 9 }]) := by
  refine ⟨by decide, by decide, by decide, ?_⟩
  have h := (c5_delete
    [{ id := "0123456789abcdef01234567", content := "hello", date := 5 },
     { id := "aaaaaaaaaaaaaaaaaaaaaaaa", content := "bye", date := 9 }]
    { id := "0123456789abcdef01234567", content := "hello", date := 5 }
    (by decide) (by decide) (by decide)).1
  simpa using h

/-- The DELETE route never grows the set of stored ids: the resulting
ids are a sublist of the previous ones. -/
theorem deleteTodo_ids_sublist (db : Store) (id : String) :
    List.Sublist (storeIds ((deleteTodo db id).2)) (storeIds db) := by
  rcases hr : todoDelete db id with e | ⟨t, db'⟩
  · simp [deleteTodo, deleteTodoWith, sendOr500, hr]
  · simp only [deleteTodo, deleteTodoWith, sendOr500, hr]
    unfold todoDelete at hr
    split at hr
    · cases hr
    · split at hr
      · cases hr
      · rw [Except.ok.injEq, Prod.mk.injEq] at hr
        obtain ⟨-, hdb⟩ := hr
        rw [← hdb]
        exact (List.filter_sublist db).map (fun u => u.id)

/-- One handled request preserves uniqueness of the stored ids. -/
theorem stepOp_nodup {db : Store} (op : Op) (h : (storeIds db).Nodup) :
    (storeIds (stepOp db op)).Nodup := by
  cases op with
  | createOp fresh now body =>
    rcases postTodo_store_cases db fresh now body with hcase | ⟨t, hcase, hid⟩
    · rw [stepOp, hcase]
      exact h
    · rw [stepOp, hcase, storeIds, List.map_append, List.nodup_append]
      refine ⟨h, by simp, ?_⟩
      intro a ha hb
      rw [List.map_singleton, List.mem_singleton] at hb
      rw [hb] at ha
      exact hid ha
  | listOp => exact h
  | updateOp id body =>
    rw [stepOp, putTodo_ids]
    exact h
  | deleteOp id =>
    exact List.Nodup.sublist (deleteTodo_ids_sublist db id) h

/-- Any request sequence from the empty store keeps ids unique. -/
theorem runOps_nodup (ops : List Op) :
    ∀ db : Store, (storeIds db).Nodup → (storeIds (runOps db ops)).Nodup := by
  induction ops with
  | nil => intro db h; exact h
  | cons op ops ih =>
    intro db h
    exact ih _ (stepOp_nodup op h)

/-- C6: in every state reachable by request sequences from the empty
store, stored ids are unique; listing and updating never change the
stored ids (in particular an update never reassigns a record's id, even
though the request body is passed through), creating only appends new
ids, and deleting only removes ids. -/
theorem c6_id_invariant :
    (∀ ops : List Op, (storeIds (runOps [] ops)).Nodup) ∧
    (∀ (db : Store) (id : String) (body : Body),
      storeIds (stepOp db (.updateOp id body)) = storeIds db) ∧
    (∀ db : Store, storeIds (stepOp db .listOp) = storeIds db) ∧
    (∀ (db : Store) (fresh : String) (now : Nat) (body : Body), ∃ extra,
      storeIds (stepOp db (.createOp fresh now body)) = storeIds db ++ extra) ∧
    (∀ (db : Store) (id : String),
      List.Sublist (storeIds (stepOp db (.deleteOp id))) (storeIds db)) := by
  refine ⟨fun ops => runOps_nodup ops [] (by simp [storeIds]),
    fun db id body => putTodo_ids db id body,
    fun db => rfl, ?_, fun db id => deleteTodo_ids_sublist db id⟩
  intro db fresh now body
  rcases postTodo_store_cases db fresh now body with hcase | ⟨t, hcase, -⟩
  · exact ⟨[], by rw [stepOp, hcase, List.append_nil]⟩
  · exact ⟨[t.id], by rw [stepOp, hcase, storeIds, List.map_append]; rfl⟩

/-- C7: `readData` always resolves with a list: with the parsed records
on success, and with `[]` after making `#notices` visible on a non-ok
response, a JSON parse failure, or a network error. -/
theorem c7_read_degrades (s : Eff) :
    (∀ e, readData (.rejected e) s =
      (.resolved [], { s with noticesDisplay := "block", logs := s.logs + 1 })) ∧
    (∀ b : Option (List Todo), readData (.resolved ⟨false, b⟩) s =
      (.resolved [], { s with noticesDisplay := "block" })) ∧
    (∀ l : List Todo, readData (.resolved ⟨true, some l⟩) s = (.resolved l, s)) ∧
    readData (.resolved ⟨true, none⟩) s =
      (.resolved [], { s with noticesDisplay := "block", logs := s.logs + 1 }) := by
  refine ⟨fun e => rfl, fun b => rfl, fun l => rfl, rfl⟩

/-- C8: on a network error or a non-ok response, each write-path client
function resolves with `undefined`, increments the console log count by
one, and leaves the `#notices` display untouched. -/
theorem c8_write_silent (s : Eff) :
    (∀ e, createData (.rejected e) s =
      (.resolved none, { s with logs := s.logs + 1 })) ∧
    (∀ b : Option Todo, createData (.resolved ⟨false, b⟩) s =
      (.resolved none, { s with logs := s.logs + 1 })) ∧
    (∀ e, updateData (.rejected e) s =
      (.resolved none, { s with logs := s.logs + 1 })) ∧
    (∀ b : Option Todo, updateData (.resolved ⟨false, b⟩) s =
      (.resolved none, { s with logs := s.logs + 1 })) ∧
    (∀ e, deleteData (.rejected e) s =
      (.resolved none, { s with logs := s.logs + 1 })) ∧
    (∀ b : Option Todo, deleteData (.resolved ⟨false, b⟩) s =
      (.resolved none, { s with logs := s.logs + 1 })) ∧
    ({ s with logs := s.logs + 1 } : Eff).noticesDisplay = s.noticesDisplay := by
  exact ⟨fun e => rfl, fun b => rfl, fun e => rfl, fun b => rfl,
    fun e => rfl, fun b => rfl, rfl⟩

/-- C9: the bodies built by `createData` and `updateData` carry exactly
the key `content` — never `id` or `date` — so a client-issued update can
never change any record's stored date (or id). -/
theorem c9_client_bodies (text : String) (todo : TodoElement) (db : Store)
    (id : String) (hnd : (storeIds db).Nodup) :
    (createRequest text).body =
      some { content := some text, id := none, date := none } ∧
    ((createRequest text).body.map Body.keys) = some ["content"] ∧
    (updateRequest todo).body =
      some { content := some todo.formInputValue, id := none, date := none } ∧
    ((updateRequest todo).body.map Body.keys) = some ["content"] ∧
    (∀ b ∈ (updateRequest todo).body, b.id = none ∧ b.date = none) ∧
    ((putTodo db id
        { content := some todo.formInputValue, id := none, date := none }).2).map
        (fun u => u.date) = db.map (fun u => u.date) ∧
    storeIds ((putTodo db id
        { content := some todo.formInputValue, id := none, date := none }).2) =
      storeIds db := by
  refine ⟨rfl, rfl, rfl, rfl, ?_, ?_, putTodo_ids db id _⟩
  · intro b hb
    rw [updateRequest] at hb
    simp only [Option.mem_def, Option.some.injEq] at hb
    rw [← hb]
    exact ⟨rfl, rfl⟩
  · rcases hr : todoUpdate db id
        { content := some todo.formInputValue, id := none, date := none } with
      e | ⟨t, db'⟩
    · simp [putTodo, putTodoWith, sendOr500, hr]
    · simp only [putTodo, putTodoWith, sendOr500, hr]
      exact todoUpdate_dates rfl hnd hr

/-- Witness for C9 on a one-record store. -/
theorem c9_client_bodies_witness :
    (storeIds [{ id := "0123456789abcdef01234567", content := "hello",
                 date := 5 }]).Nodup ∧
    ((updateRequest { datasetId := "0123456789abcdef01234567",
                      formInputValue := "buy oat milk" }).body.map Body.keys) =
      some ["content"] ∧
    ((putTodo [{ id := "0123456789abcdef01234567", content := "hello", date := 5 }]
        "0123456789abcdef01234567"
        { content := some "buy oat milk", id := none, date := none }).2).map
        (fun u => u.date) =
      ([{ id := "0123456789abcdef01234567", content := "hello", date := 5 }] :
        Store).map (fun u => u.date) := by
  have h := c9_client_bodies "x"
    { datasetId := "0123456789abcdef01234567", formInputValue := "buy oat milk" }
    [{ id := "0123456789abcdef01234567", content := "hello", date := 5 }]
    "0123456789abcdef01234567" (by decide)
  exact ⟨by decide, h.2.2.2.1, h.2.2.2.2.2.1⟩

/-- C10: none of the four client functions ever produces a rejected
promise: every chain ends in a catch that resolves. -/
theorem c10_never_rejected (fr : POutcome (FetchResponse Todo))
    (fl : POutcome (FetchResponse (List Todo))) (s : Eff) :
    (∃ v, (createData fr s).1 = .resolved v) ∧
    (∃ v, (readData fl s).1 = .resolved v) ∧
    (∃ v, (updateData fr s).1 = .resolved v) ∧
    (∃ v, (deleteData fr s).1 = .resolved v) := by
  refine ⟨?_, ?_, ?_, ?_⟩
  · rcases fr with ⟨ok, body⟩ | e
    · cases ok
      · exact ⟨none, rfl⟩
      · rcases body with - | t
        · exact ⟨none, rfl⟩
        · exact ⟨some t, rfl⟩
    · exact ⟨none, rfl⟩
  · rcases fl with ⟨ok, body⟩ | e
    · cases ok
      · exact ⟨[], rfl⟩
      · rcases body with - | l
        · exact ⟨[], rfl⟩
        · exact ⟨l, rfl⟩
    · exact ⟨[], rfl⟩
  · rcases fr with ⟨ok, body⟩ | e
    · cases ok
      · exact ⟨none, rfl⟩
      · rcases body with - | t
        · exact ⟨none, rfl⟩
        · exact ⟨some t, rfl⟩
    · exact ⟨none, rfl⟩
  · rcases fr with ⟨ok, body⟩ | e
    · cases ok
      · exact ⟨none, rfl⟩
      · rcases body with - | t
        · exact ⟨none, rfl⟩
        · exact ⟨some t, rfl⟩
    · exact ⟨none, rfl⟩

end TodoApp
